import Mathlib

set_option linter.deprecated false
set_option linter.unusedVariables false

/-!
Shallow embedding of `layoutparser/io/basic.py`: the type-dispatching layout
loader (`load_dict`) and the tabular record normalizer (`load_dataframe`).

Modelling conventions:
* JSON-decoded Python data is modelled by `JValue`; Python dicts become
  association lists read with first-match lookup (Python dicts are
  duplicate-free, so first-match agrees with dict lookup), and numeric
  literals are modelled as integers.
* The element-variant registry `BASECOORD_ELEMENT_NAMEMAP` and the feature
  list `TextBlock._features` live in `layoutparser.elements`, outside this
  file's source; both are therefore parameters (`reg`, `feats`) of the
  embedded functions.
* The external constructors `TextBlock.from_dict` and
  `BASECOORD_ELEMENT_NAMEMAP[t].from_dict` are modelled abstractly: the
  embedding records which constructor was selected and the full record it
  consumed (`Element.textBlock` / `Element.coordElement`).
* Python exceptions become the `LoadError` sum: the two `ValueError`s raised
  by `load_dict`, the `ValueError` raised by `load_dataframe`, the `KeyError`
  from a missing dict key, the `AttributeError` from `._blocks` on a
  non-Layout, and the error `ast.literal_eval` raises on malformed text.
-/

namespace LayoutParser

/-- JSON-like values as decoded by `json.load` (and the cell values of a
dataframe). Python dicts are association lists; numbers are integers. -/
inductive JValue : Type where
  | null : JValue
  | bool : Bool → JValue
  | num : Int → JValue
  | str : String → JValue
  | arr : List JValue → JValue
  | obj : List (String × JValue) → JValue


/-- First-match association-list lookup, modelling Python dict indexing
`d[key]` (`none` when the key is absent, i.e. a `KeyError`). -/
def jlookup : List (String × JValue) → String → Option JValue
  | [], _ => none
  | (k, v) :: rest, key => if k = key then some v else jlookup rest key

/-- Python's `key in d` membership test on a dict. -/
def hasKey (kvs : List (String × JValue)) (key : String) : Bool :=
  (jlookup kvs key).isSome

/-- A reconstructed layout element, recording which external constructor was
selected and the full record it consumed: `TextBlock.from_dict(data)` or
`BASECOORD_ELEMENT_NAMEMAP[t].from_dict(data)`. -/
inductive Element : Type where
  | textBlock : List (String × JValue) → Element
  | coordElement : String → List (String × JValue) → Element


/-- The result of a successful load: a single element, or a `Layout`
(ordered blocks plus optional `page_data`). -/
inductive Loaded : Type where
  | elem : Element → Loaded
  | layout : List Loaded → Option JValue → Loaded


/-- The ways a load can fail, each modelling one Python exception site. -/
inductive LoadError : Type where
  /-- `ValueError(f"Invalid block_type {data['block_type']}")`, carrying the
  offending value. -/
  | invalidBlockType : JValue → LoadError
  /-- `ValueError("Invalid input JSON structure.")`. -/
  | invalidStructure : LoadError
  /-- Python `KeyError` on `data[key]` for a missing key. -/
  | keyError : String → LoadError
  /-- Python `AttributeError`: `._blocks` read on a non-`Layout` object. -/
  | attributeError : String → LoadError
  /-- `ValueError("block_type not specified both in dataframe and arguments")`. -/
  | missingType : LoadError
  /-- The error `ast.literal_eval` raises on text that is not a valid
  literal (carries the offending cell value). -/
  | literalEvalError : JValue → LoadError


/-- The named errors of the spec's error taxonomy that `load_dict` /
`load_dataframe` themselves generate: unknown variant, malformed input,
missing type. (`KeyError`, `AttributeError` and literal-eval failures are
outside the taxonomy.) -/
def isSpecTaxonomyError : LoadError → Bool
  | .invalidBlockType _ => true
  | .invalidStructure => true
  | .missingType => true
  | _ => false

mutual

/-- `load_dict(data)` from `basic.py`: dispatch on the shape of `data`.
A dict with `"page_data"` is a Layout wrapper (its `"blocks"` field is
loaded recursively and the `"page_data"` value reattached); any other dict
is a single element record whose `"block_type"` must be a registry key,
dispatched to `TextBlock.from_dict` when any feature attribute is present
and to the registry constructor otherwise; a list is loaded elementwise
into a Layout; anything else is a malformed-input error. -/
def load_dict (reg feats : List String) : JValue → Except LoadError Loaded
  | .obj kvs =>
    if hasKey kvs "page_data" then
      match loadField reg feats kvs "blocks" with
      | none => .error (.keyError "blocks")
      | some (.error e) => .error e
      | some (.ok (.elem _)) => .error (.attributeError "_blocks")
      | some (.ok (.layout bs _)) => .ok (.layout bs (jlookup kvs "page_data"))
    else
      match jlookup kvs "block_type" with
      | none => .error (.keyError "block_type")
      | some (.str s) =>
        if s ∈ reg then
          if feats.any (fun f => hasKey kvs f) then
            .ok (.elem (.textBlock kvs))
          else
            .ok (.elem (.coordElement s kvs))
        else
          .error (.invalidBlockType (.str s))
      | some v => .error (.invalidBlockType v)
  | .arr xs =>
    match loadList reg feats xs with
    | .error e => .error e
    | .ok ls => .ok (.layout ls none)
  | _ => .error .invalidStructure

/-- `load_dict(data[key])` for an association list: find `key` and load its
value (`none` models the `KeyError` when the key is absent). -/
def loadField (reg feats : List String) :
    List (String × JValue) → String → Option (Except LoadError Loaded)
  | [], _ => none
  | (k, v) :: rest, key =>
    if k = key then some (load_dict reg feats v) else loadField reg feats rest key

/-- `[load_dict(ele) for ele in data]`: elementwise load, first failure
aborts the comprehension. -/
def loadList (reg feats : List String) : List JValue → Except LoadError (List Loaded)
  | [] => .ok []
  | x :: xs =>
    match load_dict reg feats x with
    | .error e => .error e
    | .ok l =>
      match loadList reg feats xs with
      | .error e => .error e
      | .ok ls => .ok (l :: ls)

end

/-- Does a load result carry the invalid/unknown-block-type error? -/
def failsWithInvalidBlockType : Except LoadError Loaded → Bool
  | .error (.invalidBlockType _) => true
  | _ => false

/-! ### The literal evaluator (`ast.literal_eval`) -/

/-- Decimal digit test. -/
def isDigitCh (c : Char) : Bool := decide ('0' ≤ c) && decide (c ≤ '9')

/-- Value of a digit string. -/
def digitsToNat (ds : List Char) : Nat :=
  ds.foldl (fun acc c => 10 * acc + (c.toNat - 48)) 0

/-- Split a maximal digit run off the front. -/
def takeDigits : List Char → List Char × List Char
  | [] => ([], [])
  | c :: rest =>
    if isDigitCh c then
      let (ds, r) := takeDigits rest
      (c :: ds, r)
    else ([], c :: rest)

/-- Skip spaces. -/
def skipWs : List Char → List Char
  | ' ' :: rest => skipWs rest
  | cs => cs

/-- Single-quote character. -/
def squote : Char := Char.ofNat 39

/-- Double-quote character. -/
def dquote : Char := Char.ofNat 34

/-- Opening-brace character. -/
def lbraceCh : Char := Char.ofNat 123

/-- Closing-brace character. -/
def rbraceCh : Char := Char.ofNat 125

/-- Take characters up to (not including) the closing quote `q`. -/
def takeStr (q : Char) : List Char → Option (List Char × List Char)
  | [] => none
  | c :: rest =>
    if c = q then some ([], rest)
    else
      match takeStr q rest with
      | none => none
      | some (s, r) => some (c :: s, r)

mutual

/-- Parse one literal (integer, quoted string, list, or dict) off the
front of the input. -/
def parseLit : Nat → List Char → Option (JValue × List Char)
  | 0, _ => none
  | fuel + 1, cs =>
    match skipWs cs with
    | [] => none
    | c :: rest =>
      if c = '-' then
        match takeDigits rest with
        | ([], _) => none
        | (ds, r) => some (.num (-(digitsToNat ds : Int)), r)
      else if isDigitCh c then
        match takeDigits (c :: rest) with
        | (ds, r) => some (.num (digitsToNat ds), r)
      else if c = squote then
        match takeStr squote rest with
        | none => none
        | some (s, r) => some (.str (String.mk s), r)
      else if c = dquote then
        match takeStr dquote rest with
        | none => none
        | some (s, r) => some (.str (String.mk s), r)
      else if c = '[' then
        match parseElems fuel rest with
        | none => none
        | some (vs, r) => some (.arr vs, r)
      else if c = lbraceCh then
        match parseEntries fuel rest with
        | none => none
        | some (kvs, r) => some (.obj kvs, r)
      else none

/-- Parse the elements of a list literal up to the closing bracket. -/
def parseElems : Nat → List Char → Option (List JValue × List Char)
  | 0, _ => none
  | fuel + 1, cs =>
    match skipWs cs with
    | [] => none
    | c :: rest =>
      if c = ']' then some ([], rest)
      else
        match parseLit fuel (c :: rest) with
        | none => none
        | some (v, r) =>
          match skipWs r with
          | [] => none
          | c2 :: r2 =>
            if c2 = ']' then some ([v], r2)
            else if c2 = ',' then
              match parseElems fuel r2 with
              | none => none
              | some (vs, r3) => some (v :: vs, r3)
            else none

/-- Parse the string-keyed entries of a dict literal up to the closing
brace. -/
def parseEntries : Nat → List Char → Option (List (String × JValue) × List Char)
  | 0, _ => none
  | fuel + 1, cs =>
    match skipWs cs with
    | [] => none
    | c :: rest =>
      if c = rbraceCh then some ([], rest)
      else if c = squote ∨ c = dquote then
        match takeStr c rest with
        | none => none
        | some (k, r) =>
          match skipWs r with
          | ':' :: r2 =>
            match parseLit fuel r2 with
            | none => none
            | some (v, r3) =>
              match skipWs r3 with
              | [] => none
              | c2 :: r4 =>
                if c2 = rbraceCh then some ([(String.mk k, v)], r4)
                else if c2 = ',' then
                  match parseEntries fuel r4 with
                  | none => none
                  | some (kvs, r5) => some ((String.mk k, v) :: kvs, r5)
                else none
          | _ => none
      else none

end

/-- Modelled from the spec: `ast.literal_eval`, "a general-purpose literal
evaluator" accepting "arbitrary literal syntax" (the `ast` module is Python
standard library, outside this repository's sources). The model parses
integer, quoted-string, list and dict literals; `none` models the exception
raised on malformed text. -/
def literal_eval (s : String) : Option JValue :=
  match parseLit (2 * s.length + 2) s.toList with
  | none => none
  | some (v, r) => if skipWs r = [] then some v else none

/-! ### Dataframes and the record normalizer -/

/-- A pandas dataframe: named columns, rows of cells (a `none` cell is a
missing value, `NaN`), and the rows' index labels, modelled as integers.
The default value of `index` is the default `RangeIndex` `0, 1, 2, …` —
what `read_csv` produces — but a caller-built frame (e.g. a slice of a
larger one) can carry any labels. -/
structure DataFrame : Type where
  columns : List String
  rows : List (List (Option JValue))
  index : List Int := (List.range rows.length).map Int.ofNat

/-- Well-formedness of a frame: every row has one cell per column, and
there is one index label per row (both always true of a real dataframe). -/
def DataFrame.rect (df : DataFrame) : Bool :=
  df.rows.all (fun r => r.length == df.columns.length)
    && df.index.length == df.rows.length

/-- The cell of row `r` at column `name` (first occurrence); `none` when
the column is absent or the cell is missing. -/
def getCell : List String → List (Option JValue) → String → Option JValue
  | c :: cs, x :: xs, name => if c = name then x else getCell cs xs name
  | _, _, _ => none

/-- `df[name]`: the column as a list of cells. -/
def DataFrame.getCol (df : DataFrame) (name : String) : List (Option JValue) :=
  df.rows.map (fun r => getCell df.columns r name)

/-- Replace the cell at column `name` in one row. -/
def setCellRow : List String → List (Option JValue) → String → Option JValue →
    List (Option JValue)
  | [], r, _, _ => r
  | _ :: _, [], _, _ => []
  | c :: cs, x :: xs, name, v =>
    if c = name then v :: xs else x :: setCellRow cs xs name v

/-- `df[name] = cells`: overwrite the column when it exists, append a new
column otherwise (pandas column assignment). -/
def DataFrame.setCol (df : DataFrame) (name : String)
    (cells : List (Option JValue)) : DataFrame :=
  if name ∈ df.columns then
    { df with rows := List.zipWith (fun r c => setCellRow df.columns r name c) df.rows cells }
  else
    { df with
      columns := df.columns ++ [name],
      rows := List.zipWith (fun r c => r ++ [c]) df.rows cells }

/-- Model of `df[name].dtype == object`: a pandas column gets dtype
`object` exactly when it holds some non-numeric (non-missing) value. -/
def colDtypeIsObject (cells : List (Option JValue)) : Bool :=
  cells.any fun c =>
    match c with
    | none => false
    | some (.num _) => false
    | some _ => true

/-- One step of `lambda x: x if pd.isna(x) else ast.literal_eval(x)`:
missing cells pass through, string cells are literal-parsed (failure is the
`ast` exception), and a non-string non-missing cell also makes
`ast.literal_eval` raise. -/
def parsePointsCell : Option JValue → Except LoadError (Option JValue)
  | none => .ok none
  | some (.str s) =>
    match literal_eval s with
    | some v => .ok (some v)
    | none => .error (.literalEvalError (.str s))
  | some v => .error (.literalEvalError v)

/-- `df["points"].map(...)`: parse every cell of the points column, first
failure aborts. -/
def parsePointsCol : List (Option JValue) → Except LoadError (List (Option JValue))
  | [] => .ok []
  | c :: rest =>
    match parsePointsCell c with
    | .error e => .error e
    | .ok v =>
      match parsePointsCol rest with
      | .error e => .error e
      | .ok vs => .ok (v :: vs)

/-- The points-repair statement of `load_dataframe`: when a `"points"`
column exists with dtype `object`, literal-parse its cells. -/
def repairPoints (df : DataFrame) : Except LoadError DataFrame :=
  if df.columns.contains "points" && colDtypeIsObject (df.getCol "points") then
    match parsePointsCol (df.getCol "points") with
    | .error e => .error e
    | .ok cells => .ok (df.setCol "points" cells)
  else .ok df

/-- The type-resolution statement of `load_dataframe`: a supplied
`block_type` argument stamps the whole column; with no argument a
`block_type` column is required. -/
def resolveType (df : DataFrame) (bt : Option String) : Except LoadError DataFrame :=
  match bt with
  | none =>
    if df.columns.contains "block_type" then .ok df else .error .missingType
  | some t => .ok (df.setCol "block_type" (df.rows.map fun _ => some (.str t)))

/-- The identity statement of `load_dataframe`: when some column is a
TextBlock feature and there is no `id` column, `df["id"] = df.index` —
the rows are stamped with their index labels, which are the 0-based row
positions exactly when the index is the default `RangeIndex`. -/
def assignIds (feats : List String) (df : DataFrame) : DataFrame :=
  if df.columns.any (fun c => feats.contains c) && !df.columns.contains "id" then
    df.setCol "id" (df.index.map fun l => some (.num l))
  else df

/-- `row.dropna().to_dict()`: the record of one row, dropping missing
cells, keys in column order. -/
def rowToRecord : List String → List (Option JValue) → List (String × JValue)
  | c :: cs, some v :: xs => (c, v) :: rowToRecord cs xs
  | _ :: cs, none :: xs => rowToRecord cs xs
  | _, _ => []

/-- The record-normalization pipeline of `load_dataframe`: points repair,
type resolution, id assignment, then per-row conversion in row order
(`df.apply(lambda x: x.dropna().to_dict(), axis=1).to_list()`). -/
def normalizeRecords (feats : List String) (df : DataFrame) (bt : Option String) :
    Except LoadError (List (List (String × JValue))) :=
  match repairPoints df with
  | .error e => .error e
  | .ok df1 =>
    match resolveType df1 bt with
    | .error e => .error e
    | .ok df2 =>
      let df3 := assignIds feats df2
      .ok (df3.rows.map fun r => rowToRecord df3.columns r)

/-- `load_dataframe(df, block_type)` from `basic.py`. -/
def load_dataframe (reg feats : List String) (df : DataFrame) (bt : Option String) :
    Except LoadError Loaded :=
  match normalizeRecords feats df bt with
  | .error e => .error e
  | .ok recs => load_dict reg feats (.arr (recs.map JValue.obj))

/-- A heap of dataframes: Python variables hold references (list indices)
into it, and in-place column assignment mutates the referenced frame. -/
abbrev DFStore : Type := List DataFrame

/-- `load_dataframe` with the caller's dataframe held in a mutable store at
reference `r`, following the source statement by statement: `df.copy()`
allocates a fresh frame, and every later column assignment mutates only
that copy. Returns the result and the final store. -/
def load_dataframeS (reg feats : List String) (store : DFStore) (r : Nat)
    (bt : Option String) : Except LoadError Loaded × DFStore :=
  match store.get? r with
  | none => (.error .invalidStructure, store)
  | some df =>
    let store1 := store ++ [df]
    let r1 := store.length
    match repairPoints df with
    | .error e => (.error e, store1)
    | .ok df1 =>
      let store2 := store1.set r1 df1
      match resolveType df1 bt with
      | .error e => (.error e, store2)
      | .ok df2 =>
        let store3 := store2.set r1 df2
        let df3 := assignIds feats df2
        let store4 := store3.set r1 df3
        (load_dict reg feats
          (.arr ((df3.rows.map fun row => rowToRecord df3.columns row).map JValue.obj)),
         store4)

/-! ### Helper lemmas about the loader -/

/-- `loadField` is lookup followed by `load_dict`. -/
theorem loadField_eq (reg feats : List String) (kvs : List (String × JValue))
    (key : String) :
    loadField reg feats kvs key = (jlookup kvs key).map (load_dict reg feats) := by
  induction kvs with
  | nil => simp [loadField, jlookup]
  | cons p rest ih =>
    obtain ⟨k, v⟩ := p
    by_cases h : k = key <;> simp [loadField, jlookup, h, ih]

/-- Pointwise reading of a successful `loadList`: entry `i` of the result is
the load of entry `i` of the input, for every index. -/
theorem loadList_ok_get? (reg feats : List String) (xs : List JValue)
    (ls : List Loaded) (h : loadList reg feats xs = .ok ls) (i : Nat) :
    (xs.get? i).map (load_dict reg feats) = (ls.get? i).map Except.ok := by
  induction xs generalizing ls i with
  | nil =>
    simp [loadList] at h
    subst h
    simp
  | cons x xt ih =>
    rw [loadList] at h
    cases hx : load_dict reg feats x with
    | error e => rw [hx] at h; simp at h
    | ok l =>
      rw [hx] at h
      cases ht : loadList reg feats xt with
      | error e => rw [ht] at h; simp at h
      | ok ls' =>
        rw [ht] at h
        simp only [Except.ok.injEq] at h
        subst h
        cases i with
        | zero => simp [hx]
        | succ n => simpa using ih ls' ht n

/-! ### Claims about `load_dict` -/

/-- **C1 (amended).** For a mapping without `"page_data"`: when
`"block_type"` is present with a string value that is not a registry key,
the load fails with the invalid-block-type error naming that value; but
when `"block_type"` is absent, the load fails with a missing-key
(`KeyError`) failure instead, not the invalid-block-type error. In
particular `{"block_type": "unknown_x"}` fails naming `"unknown_x"`. -/
theorem c1_block_type_validation (reg feats : List String)
    (kvs : List (String × JValue)) (hpd : hasKey kvs "page_data" = false) :
    (∀ s : String, jlookup kvs "block_type" = some (.str s) → s ∉ reg →
      load_dict reg feats (.obj kvs) = .error (.invalidBlockType (.str s))) ∧
    (jlookup kvs "block_type" = none →
      load_dict reg feats (.obj kvs) = .error (.keyError "block_type") ∧
      failsWithInvalidBlockType (load_dict reg feats (.obj kvs)) = false) := by
  constructor
  · intro s hbt hs
    simp [load_dict, hpd, hbt, hs]
  · intro hbt
    have h : load_dict reg feats (.obj kvs) = .error (.keyError "block_type") := by
      simp [load_dict, hpd, hbt]
    exact ⟨h, by rw [h]; rfl⟩

/-- Witness for C1: `{"block_type": "unknown_x"}` fails naming
`"unknown_x"`. -/
theorem c1_block_type_validation_witness :
    load_dict ["rectangle"] ["text"] (.obj [("block_type", .str "unknown_x")])
      = .error (.invalidBlockType (.str "unknown_x")) :=
  (c1_block_type_validation ["rectangle"] ["text"]
    [("block_type", .str "unknown_x")] (by rfl)).1 "unknown_x" (by rfl) (by decide)

/-- **C1 (counterexample to the claim as stated).** The empty mapping has no
`"page_data"` key and no `"block_type"` key, yet the load fails with a
missing-key failure, not with the invalid/unknown-block-type error naming
an offending value. -/
theorem c1_counterexample :
    load_dict ["rectangle"] ["text"] (.obj []) = .error (.keyError "block_type") ∧
    failsWithInvalidBlockType (load_dict ["rectangle"] ["text"] (.obj [])) = false := by
  have h : load_dict ["rectangle"] ["text"] (.obj [])
      = .error (.keyError "block_type") := by
    simp [load_dict, hasKey, jlookup]
  exact ⟨h, by rw [h]; rfl⟩

/-- **C2.** For a mapping without `"page_data"` whose `"block_type"` is a
registry key: when at least one TextBlock feature attribute is present the
record is built by `TextBlock.from_dict` (whatever the declared
`block_type`); otherwise it is built by the registry constructor indexed by
the `block_type` value. -/
theorem c2_dispatch (reg feats : List String) (kvs : List (String × JValue))
    (s : String) (hpd : hasKey kvs "page_data" = false)
    (hbt : jlookup kvs "block_type" = some (.str s)) (hreg : s ∈ reg) :
    (feats.any (fun f => hasKey kvs f) = true →
      load_dict reg feats (.obj kvs) = .ok (.elem (.textBlock kvs))) ∧
    (feats.any (fun f => hasKey kvs f) = false →
      load_dict reg feats (.obj kvs) = .ok (.elem (.coordElement s kvs))) := by
  constructor <;> intro hfeat <;> simp [load_dict, hpd, hbt, hreg, hfeat]

/-- Witness for C2: a record with the non-text type `"rectangle"` but a
`"text"` feature becomes a TextBlock, and the same record without the
feature goes to the registry constructor. -/
theorem c2_dispatch_witness :
    load_dict ["rectangle"] ["text"]
      (.obj [("block_type", .str "rectangle"), ("text", .str "hi")])
      = .ok (.elem (.textBlock
          [("block_type", .str "rectangle"), ("text", .str "hi")])) ∧
    load_dict ["rectangle"] ["text"]
      (.obj [("block_type", .str "rectangle"), ("x1", .num 0)])
      = .ok (.elem (.coordElement "rectangle"
          [("block_type", .str "rectangle"), ("x1", .num 0)])) :=
  ⟨(c2_dispatch ["rectangle"] ["text"]
      [("block_type", .str "rectangle"), ("text", .str "hi")] "rectangle"
      (by rfl) (by rfl) (by decide)).1 (by rfl),
   (c2_dispatch ["rectangle"] ["text"]
      [("block_type", .str "rectangle"), ("x1", .num 0)] "rectangle"
      (by rfl) (by rfl) (by decide)).2 (by rfl)⟩

/-- **C3.** A mapping with `"page_data"` whose `"blocks"` list loads
elementwise loads as a Layout carrying exactly those elements and the
`"page_data"` value as attached metadata; entry `i` of the Layout is the
load of entry `i` of the `"blocks"` list, so input order is preserved. -/
theorem c3_page_wrapper (reg feats : List String) (kvs : List (String × JValue))
    (blocks : List JValue) (pd : JValue) (ls : List Loaded)
    (hpd : jlookup kvs "page_data" = some pd)
    (hbl : jlookup kvs "blocks" = some (.arr blocks))
    (hload : loadList reg feats blocks = .ok ls) :
    load_dict reg feats (.obj kvs) = .ok (.layout ls (some pd)) ∧
    ∀ i : Nat, (blocks.get? i).map (load_dict reg feats) = (ls.get? i).map Except.ok := by
  have hk : hasKey kvs "page_data" = true := by simp [hasKey, hpd]
  constructor
  · simp [load_dict, hk, loadField_eq, hbl, hpd, hload]
  · exact loadList_ok_get? reg feats blocks ls hload

/-- Witness for C3: the spec's example
`{"page_data": {"width": 10}, "blocks": [{"block_type": "rectangle", ...}]}`
loads into a one-element Layout with metadata `{"width": 10}`. -/
theorem c3_page_wrapper_witness :
    load_dict ["rectangle"] ["text"]
      (.obj [("page_data", .obj [("width", .num 10)]),
             ("blocks", .arr [.obj [("block_type", .str "rectangle"),
               ("x1", .num 0), ("y1", .num 0), ("x2", .num 1), ("y2", .num 1)]])])
      = .ok (.layout [.elem (.coordElement "rectangle"
          [("block_type", .str "rectangle"), ("x1", .num 0), ("y1", .num 0),
           ("x2", .num 1), ("y2", .num 1)])]
          (some (.obj [("width", .num 10)]))) :=
  (c3_page_wrapper ["rectangle"] ["text"] _ _ _ _
    (by rfl) (by rfl)
    (by simp [loadList, load_dict, jlookup, hasKey])).1

/-- **C10.** With `"page_data"` present the page-wrapper branch takes
precedence unconditionally: if `"blocks"` is absent the load fails with a
missing-key failure that is outside the spec's named error taxonomy, and
the result depends only on the `"blocks"` and `"page_data"` entries — two
mappings agreeing on those two lookups (whatever their `"block_type"`
entries) load identically, so `block_type` is neither validated nor used. -/
theorem c10_page_precedence (reg feats : List String)
    (kvs kvs' : List (String × JValue)) (pd : JValue)
    (hpd : jlookup kvs "page_data" = some pd) :
    (jlookup kvs "blocks" = none →
      load_dict reg feats (.obj kvs) = .error (.keyError "blocks") ∧
      isSpecTaxonomyError (.keyError "blocks") = false) ∧
    (jlookup kvs' "page_data" = jlookup kvs "page_data" →
      jlookup kvs' "blocks" = jlookup kvs "blocks" →
      load_dict reg feats (.obj kvs') = load_dict reg feats (.obj kvs)) := by
  have hk : hasKey kvs "page_data" = true := by simp [hasKey, hpd]
  constructor
  · intro hbl
    exact ⟨by simp [load_dict, hk, loadField_eq, hbl], rfl⟩
  · intro h1 h2
    have hk' : hasKey kvs' "page_data" = true := by simp [hasKey, h1, hpd]
    rw [load_dict, load_dict]
    simp only [hk, hk', if_true, loadField_eq, h1, h2, hpd]

/-- Witness for C10: a page mapping with a bogus `"block_type"` and no
`"blocks"` fails with the missing-key failure (the bogus type is never
validated). -/
theorem c10_page_precedence_witness :
    load_dict ["rectangle"] ["text"]
      (.obj [("page_data", .num 1), ("block_type", .str "bogus")])
      = .error (.keyError "blocks") ∧
    isSpecTaxonomyError (.keyError "blocks") = false :=
  (c10_page_precedence ["rectangle"] ["text"]
    [("page_data", .num 1), ("block_type", .str "bogus")]
    [("page_data", .num 1), ("block_type", .str "bogus")]
    (.num 1) (by rfl)).1 (by rfl)

/-! ### Helper lemmas about dataframes -/

/-- Pointwise reading of `zipWith`. -/
theorem zipWith_get? {α β γ : Type} (f : α → β → γ) (as : List α) (bs : List β)
    (i : Nat) :
    (List.zipWith f as bs).get? i =
      match as.get? i, bs.get? i with
      | some a, some b => some (f a b)
      | _, _ => none := by
  induction as generalizing bs i with
  | nil => cases bs.get? i <;> simp
  | cons a as' ih =>
    cases bs with
    | nil => cases i <;> simp
    | cons b bs' =>
      cases i with
      | zero => simp
      | succ n => simpa using ih bs' n

/-- `set` at one index leaves every other index unchanged. -/
theorem get?_set_ne {α : Type} (l : List α) (i j : Nat) (a : α) (h : i ≠ j) :
    (l.set i a).get? j = l.get? j := by
  induction l generalizing i j with
  | nil => simp
  | cons x xs ih =>
    cases i with
    | zero =>
      cases j with
      | zero => exact absurd rfl h
      | succ m => simp
    | succ n =>
      cases j with
      | zero => simp
      | succ m => simpa using ih n m (fun hh => h (by rw [hh]))

/-- `setCellRow` preserves row length. -/
theorem setCellRow_length (cols : List String) (r : List (Option JValue))
    (name : String) (v : Option JValue) :
    (setCellRow cols r name v).length = r.length := by
  induction cols generalizing r with
  | nil => simp [setCellRow]
  | cons c cs ih =>
    cases r with
    | nil => simp [setCellRow]
    | cons x xs => by_cases h : c = name <;> simp [setCellRow, h, ih]

/-- Replacing one column's cell leaves the other columns' cells unchanged. -/
theorem getCell_setCellRow_ne (cols : List String) (r : List (Option JValue))
    (name other : String) (v : Option JValue) (h : other ≠ name) :
    getCell cols (setCellRow cols r name v) other = getCell cols r other := by
  induction cols generalizing r with
  | nil => simp [setCellRow]
  | cons c cs ih =>
    cases r with
    | nil => simp [setCellRow, getCell]
    | cons x xs =>
      by_cases hc : c = name
      · subst hc
        have hco : c ≠ other := fun hh => h hh.symm
        simp [setCellRow, getCell, hco]
      · by_cases ho : c = other <;> simp [setCellRow, getCell, hc, ho, ih, h]

/-- Replacing one column's cell stores exactly that cell. -/
theorem getCell_setCellRow_self (cols : List String) (r : List (Option JValue))
    (name : String) (v : Option JValue) (hmem : name ∈ cols)
    (hlen : cols.length ≤ r.length) :
    getCell cols (setCellRow cols r name v) name = v := by
  induction cols generalizing r with
  | nil => simp at hmem
  | cons c cs ih =>
    cases r with
    | nil => simp at hlen
    | cons x xs =>
      by_cases hc : c = name
      · simp [setCellRow, getCell, hc]
      · have hm : name ∈ cs := by
          rcases List.mem_cons.mp hmem with h1 | h1
          · exact absurd h1.symm hc
          · exact h1
        have hl : cs.length ≤ xs.length := by simpa using hlen
        simp [setCellRow, getCell, hc, ih xs hm hl]

/-- Reading an old column through an appended column/cell pair. -/
theorem getCell_append_ne (cols : List String) (r : List (Option JValue))
    (name other : String) (v : Option JValue) (h : other ≠ name)
    (hlen : r.length = cols.length) :
    getCell (cols ++ [name]) (r ++ [v]) other = getCell cols r other := by
  induction cols generalizing r with
  | nil =>
    cases r with
    | nil => simp [getCell, Ne.symm h]
    | cons _ _ => simp at hlen
  | cons c cs ih =>
    cases r with
    | nil => simp at hlen
    | cons x xs =>
      have hl : xs.length = cs.length := by simpa using hlen
      by_cases hc : c = other <;> simp [getCell, hc, ih xs hl]

/-- Reading the appended column retrieves the appended cell. -/
theorem getCell_append_self (cols : List String) (r : List (Option JValue))
    (name : String) (v : Option JValue) (hmem : name ∉ cols)
    (hlen : r.length = cols.length) :
    getCell (cols ++ [name]) (r ++ [v]) name = v := by
  induction cols generalizing r with
  | nil =>
    cases r with
    | nil => simp [getCell]
    | cons _ _ => simp at hlen
  | cons c cs ih =>
    cases r with
    | nil => simp at hlen
    | cons x xs =>
      have hl : xs.length = cs.length := by simpa using hlen
      have hc : c ≠ name := fun hh => hmem (by simp [hh])
      have hm : name ∉ cs := fun hh => hmem (by simp [hh])
      simp [getCell, hc, ih xs hm hl]

/-- Columns after a column assignment. -/
theorem setCol_columns (df : DataFrame) (name : String)
    (cells : List (Option JValue)) :
    (df.setCol name cells).columns =
      if name ∈ df.columns then df.columns else df.columns ++ [name] := by
  unfold DataFrame.setCol
  split <;> simp_all

/-- A column assignment with one cell per row preserves the row count. -/
theorem setCol_rows_length (df : DataFrame) (name : String)
    (cells : List (Option JValue)) (hlen : cells.length = df.rows.length) :
    (df.setCol name cells).rows.length = df.rows.length := by
  unfold DataFrame.setCol
  split <;> simp [hlen]

/-- A column assignment preserves duplicate-freedom of the column names. -/
theorem setCol_columns_nodup (df : DataFrame) (name : String)
    (cells : List (Option JValue)) (h : df.columns.Nodup) :
    (df.setCol name cells).columns.Nodup := by
  rw [setCol_columns]
  split
  · exact h
  · next hmem => simp [List.nodup_append, h, hmem]

/-- A column assignment never changes the index. -/
theorem setCol_index (df : DataFrame) (name : String)
    (cells : List (Option JValue)) :
    (df.setCol name cells).index = df.index := by
  unfold DataFrame.setCol
  split <;> rfl

/-- The row-shape half of well-formedness. -/
theorem rect_rows_all (df : DataFrame) (h : df.rect = true) :
    df.rows.all (fun r => r.length == df.columns.length) = true := by
  unfold DataFrame.rect at h
  simp only [Bool.and_eq_true] at h
  exact h.1

/-- The index-length half of well-formedness. -/
theorem rect_index_length (df : DataFrame) (h : df.rect = true) :
    df.index.length = df.rows.length := by
  unfold DataFrame.rect at h
  simp only [Bool.and_eq_true, beq_iff_eq] at h
  exact h.2

/-- Pointwise reading of the rows after a column assignment. -/
theorem setCol_rows_get? (df : DataFrame) (name : String)
    (cells : List (Option JValue)) (i : Nat) :
    (df.setCol name cells).rows.get? i =
      match df.rows.get? i, cells.get? i with
      | some r, some c =>
        some (if name ∈ df.columns then setCellRow df.columns r name c else r ++ [c])
      | _, _ => none := by
  unfold DataFrame.setCol
  by_cases h : name ∈ df.columns
  · rw [if_pos h]
    show (List.zipWith _ df.rows cells).get? i = _
    rw [zipWith_get?]
    cases df.rows.get? i <;> cases cells.get? i <;> simp [h]
  · rw [if_neg h]
    show (List.zipWith _ df.rows cells).get? i = _
    rw [zipWith_get?]
    cases df.rows.get? i <;> cases cells.get? i <;> simp [h]

/-- Row length against column count, read off a well-formed frame. -/
theorem rect_row_length (df : DataFrame) (hrect : df.rect = true)
    (i : Nat) (row : List (Option JValue)) (hrow : df.rows.get? i = some row) :
    row.length = df.columns.length := by
  have hall := rect_rows_all df hrect
  have hmem := List.get?_mem hrow
  have := (List.all_eq_true.mp hall) row hmem
  simpa using this

/-- A column assignment with one cell per row preserves well-formedness. -/
theorem setCol_rect (df : DataFrame) (name : String)
    (cells : List (Option JValue)) (hrect : df.rect = true)
    (hlen : cells.length = df.rows.length) :
    (df.setCol name cells).rect = true := by
  unfold DataFrame.rect
  simp only [Bool.and_eq_true]
  constructor
  · rw [List.all_eq_true]
    intro r hr
    rw [List.mem_iff_get?] at hr
    obtain ⟨i, hi⟩ := hr
    rw [setCol_rows_get?] at hi
    cases hrow : df.rows.get? i with
    | none => rw [hrow] at hi; simp at hi
    | some row =>
      cases hcell : cells.get? i with
      | none => rw [hrow, hcell] at hi; simp at hi
      | some c =>
        rw [hrow, hcell] at hi
        simp only [Option.some.injEq] at hi
        have hrl := rect_row_length df hrect i row hrow
        rw [setCol_columns]
        by_cases hmem : name ∈ df.columns
        · rw [if_pos hmem] at hi
          rw [if_pos hmem]
          subst hi
          simp [setCellRow_length, hrl]
        · rw [if_neg hmem] at hi
          rw [if_neg hmem]
          subst hi
          simp [hrl]
  · rw [setCol_index, setCol_rows_length df name cells hlen,
      rect_index_length df hrect]
    simp

/-- Assigning a column and reading it back gives the assigned cells. -/
theorem setCol_getCol_self (df : DataFrame) (name : String)
    (cells : List (Option JValue)) (hrect : df.rect = true)
    (hlen : cells.length = df.rows.length) :
    (df.setCol name cells).getCol name = cells := by
  apply List.ext
  intro i
  unfold DataFrame.getCol
  rw [List.get?_map, setCol_rows_get?]
  cases hrow : df.rows.get? i with
  | none =>
    have hi : df.rows.length ≤ i := List.get?_eq_none.mp hrow
    have hc : cells.get? i = none := List.get?_eq_none.mpr (by omega)
    rw [hc]
    rfl
  | some row =>
    cases hcell : cells.get? i with
    | none =>
      have hi : cells.length ≤ i := List.get?_eq_none.mp hcell
      have : df.rows.get? i = none := List.get?_eq_none.mpr (by omega)
      rw [this] at hrow
      exact absurd hrow (by simp)
    | some c =>
      have hrlen := rect_row_length df hrect i row hrow
      by_cases hmem : name ∈ df.columns
      · simp only [hmem, if_true, Option.map_some', setCol_columns]
        rw [getCell_setCellRow_self df.columns row name c hmem (by omega)]
      · simp only [hmem, if_false, Option.map_some', setCol_columns]
        rw [getCell_append_self df.columns row name c hmem hrlen]

/-- Assigning one column leaves every other column's cells unchanged. -/
theorem setCol_getCol_ne (df : DataFrame) (name other : String)
    (cells : List (Option JValue)) (h : other ≠ name) (hrect : df.rect = true)
    (hlen : cells.length = df.rows.length) :
    (df.setCol name cells).getCol other = df.getCol other := by
  apply List.ext
  intro i
  unfold DataFrame.getCol
  rw [List.get?_map, List.get?_map, setCol_rows_get?]
  cases hrow : df.rows.get? i with
  | none =>
    have hi : df.rows.length ≤ i := List.get?_eq_none.mp hrow
    have hc : cells.get? i = none := List.get?_eq_none.mpr (by omega)
    simp [hc]
  | some row =>
    cases hcell : cells.get? i with
    | none =>
      have hi : cells.length ≤ i := List.get?_eq_none.mp hcell
      have : df.rows.get? i = none := List.get?_eq_none.mpr (by omega)
      rw [this] at hrow
      exact absurd hrow (by simp)
    | some c =>
      have hrlen := rect_row_length df hrect i row hrow
      by_cases hmem : name ∈ df.columns
      · simp only [hmem, if_true, Option.map_some', setCol_columns]
        rw [getCell_setCellRow_ne df.columns row name other c h]
      · simp only [hmem, if_false, Option.map_some', setCol_columns]
        rw [getCell_append_ne df.columns row name other c h hrlen]

/-- Column assignment on an empty frame keeps the rows empty. -/
theorem setCol_rows_nil (df : DataFrame) (h : df.rows = []) (name : String)
    (cells : List (Option JValue)) : (df.setCol name cells).rows = [] := by
  unfold DataFrame.setCol
  split <;> simp [h]

/-- A successful points-column parse preserves the cell count. -/
theorem parsePointsCol_ok_length (cs : List (Option JValue))
    (out : List (Option JValue)) (h : parsePointsCol cs = .ok out) :
    out.length = cs.length := by
  induction cs generalizing out with
  | nil =>
    simp [parsePointsCol] at h
    subst h
    rfl
  | cons c rest ih =>
    rw [parsePointsCol] at h
    cases h1 : parsePointsCell c with
    | error e => rw [h1] at h; simp at h
    | ok v =>
      rw [h1] at h
      cases h2 : parsePointsCol rest with
      | error e => rw [h2] at h; simp at h
      | ok vs =>
        rw [h2] at h
        simp only [Except.ok.injEq] at h
        subst h
        simp [ih vs h2]

/-- Pointwise reading of a successful points-column parse. -/
theorem parsePointsCol_ok_get? (cs : List (Option JValue))
    (out : List (Option JValue)) (h : parsePointsCol cs = .ok out)
    (i : Nat) (c : Option JValue) (hc : cs.get? i = some c) :
    ∃ o, out.get? i = some o ∧ parsePointsCell c = .ok o := by
  induction cs generalizing out i with
  | nil => simp at hc
  | cons c0 rest ih =>
    rw [parsePointsCol] at h
    cases h1 : parsePointsCell c0 with
    | error e => rw [h1] at h; simp at h
    | ok v =>
      rw [h1] at h
      cases h2 : parsePointsCol rest with
      | error e => rw [h2] at h; simp at h
      | ok vs =>
        rw [h2] at h
        simp only [Except.ok.injEq] at h
        subst h
        cases i with
        | zero =>
          simp only [List.get?] at hc
          cases hc
          exact ⟨v, by simp, h1⟩
        | succ n =>
          simp only [List.get?] at hc
          obtain ⟨o, ho1, ho2⟩ := ih vs h2 n hc
          exact ⟨o, by simpa using ho1, ho2⟩

/-- A failing points cell always fails with the literal-eval error. -/
theorem parsePointsCell_error_shape (c : Option JValue) (e : LoadError)
    (h : parsePointsCell c = .error e) : ∃ w, e = .literalEvalError w := by
  cases c with
  | none => simp [parsePointsCell] at h
  | some v =>
    cases v with
    | str s =>
      rw [parsePointsCell] at h
      cases hl : literal_eval s with
      | some u => rw [hl] at h; simp at h
      | none =>
        rw [hl] at h
        simp only [Except.error.injEq] at h
        exact ⟨.str s, h.symm⟩
    | null => simp [parsePointsCell] at h; exact ⟨.null, h.symm⟩
    | bool b => simp [parsePointsCell] at h; exact ⟨.bool b, h.symm⟩
    | num n => simp [parsePointsCell] at h; exact ⟨.num n, h.symm⟩
    | arr a => simp [parsePointsCell] at h; exact ⟨.arr a, h.symm⟩
    | obj o => simp [parsePointsCell] at h; exact ⟨.obj o, h.symm⟩

/-- If any cell of the column fails to parse, the whole column parse fails
with a literal-eval error. -/
theorem parsePointsCol_error_of_mem (cs : List (Option JValue))
    (c : Option JValue) (hc : c ∈ cs) (e : LoadError)
    (he : parsePointsCell c = .error e) :
    ∃ w, parsePointsCol cs = .error (.literalEvalError w) := by
  induction cs with
  | nil => simp at hc
  | cons c0 rest ih =>
    rw [parsePointsCol]
    cases h1 : parsePointsCell c0 with
    | error e0 =>
      obtain ⟨w, hw⟩ := parsePointsCell_error_shape c0 e0 h1
      exact ⟨w, by rw [hw]⟩
    | ok v =>
      rcases List.mem_cons.mp hc with hh | hh
      · subst hh
        rw [h1] at he
        exact absurd he (by simp)
      · obtain ⟨w, hw⟩ := ih hh
        rw [hw]
        exact ⟨w, rfl⟩

/-- A record never contains a key outside the column list. -/
theorem jlookup_rowToRecord_notMem (cols : List String)
    (r : List (Option JValue)) (name : String) (h : name ∉ cols) :
    jlookup (rowToRecord cols r) name = none := by
  induction cols generalizing r with
  | nil => simp [rowToRecord, jlookup]
  | cons c cs ih =>
    cases r with
    | nil => simp [rowToRecord, jlookup]
    | cons x xs =>
      have h1 : c ≠ name := fun hh => h (by simp [hh])
      have h2 : name ∉ cs := fun hm => h (by simp [hm])
      cases x with
      | none => simpa [rowToRecord] using ih xs h2
      | some v => simp [rowToRecord, jlookup, h1, ih xs h2]

/-- With duplicate-free columns, looking a key up in a row's record reads
exactly that row's cell (absent key and missing cell both give `none`). -/
theorem jlookup_rowToRecord (cols : List String) (r : List (Option JValue))
    (name : String) (hnd : cols.Nodup) :
    jlookup (rowToRecord cols r) name = getCell cols r name := by
  induction cols generalizing r with
  | nil => simp [rowToRecord, jlookup, getCell]
  | cons c cs ih =>
    have hnd' : cs.Nodup := (List.nodup_cons.mp hnd).2
    cases r with
    | nil => simp [rowToRecord, jlookup, getCell]
    | cons x xs =>
      by_cases hc : c = name
      · subst hc
        cases x with
        | some v => simp [rowToRecord, jlookup, getCell]
        | none =>
          have hcs : c ∉ cs := (List.nodup_cons.mp hnd).1
          simp [rowToRecord, getCell, jlookup_rowToRecord_notMem cs xs c hcs]
      · cases x with
        | some v => simp [rowToRecord, jlookup, getCell, hc, ih xs hnd']
        | none => simp [rowToRecord, getCell, hc, ih xs hnd']

/-! ### Pipeline-level lemmas -/

/-- Case analysis of a successful points repair. -/
theorem repairPoints_ok_cases (df df1 : DataFrame) (h : repairPoints df = .ok df1) :
    (df1 = df ∧
      (df.columns.contains "points" && colDtypeIsObject (df.getCol "points")) = false) ∨
    ∃ cells, parsePointsCol (df.getCol "points") = .ok cells ∧
      df1 = df.setCol "points" cells ∧ "points" ∈ df.columns ∧
      cells.length = df.rows.length := by
  unfold repairPoints at h
  split at h
  · next hc =>
    cases hp : parsePointsCol (df.getCol "points") with
    | error e => rw [hp] at h; simp at h
    | ok cells =>
      rw [hp] at h
      simp only [Except.ok.injEq] at h
      simp only [Bool.and_eq_true] at hc
      refine .inr ⟨cells, rfl, h.symm, ?_, ?_⟩
      · simpa using hc.1
      · have := parsePointsCol_ok_length _ _ hp
        simpa [DataFrame.getCol] using this
  · next hc =>
    simp only [Except.ok.injEq] at h
    exact .inl ⟨h.symm, by simpa using hc⟩

/-- Points repair never changes the column list. -/
theorem repairPoints_ok_columns (df df1 : DataFrame)
    (h : repairPoints df = .ok df1) : df1.columns = df.columns := by
  rcases repairPoints_ok_cases df df1 h with ⟨h1, _⟩ | ⟨cells, _, h1, hmem, _⟩
  · rw [h1]
  · rw [h1, setCol_columns, if_pos hmem]

/-- Points repair never changes the row count. -/
theorem repairPoints_ok_rows_length (df df1 : DataFrame)
    (h : repairPoints df = .ok df1) : df1.rows.length = df.rows.length := by
  rcases repairPoints_ok_cases df df1 h with ⟨h1, _⟩ | ⟨cells, _, h1, _, hlen⟩
  · rw [h1]
  · rw [h1]
    exact setCol_rows_length _ _ _ hlen

/-- Points repair preserves rectangularity. -/
theorem repairPoints_ok_rect (df df1 : DataFrame) (h : repairPoints df = .ok df1)
    (hrect : df.rect = true) : df1.rect = true := by
  rcases repairPoints_ok_cases df df1 h with ⟨h1, _⟩ | ⟨cells, _, h1, _, hlen⟩
  · rw [h1]; exact hrect
  · rw [h1]
    exact setCol_rect _ _ _ hrect hlen

/-- Points repair leaves every column other than `"points"` unchanged. -/
theorem repairPoints_ok_getCol_ne (df df1 : DataFrame)
    (h : repairPoints df = .ok df1) (other : String) (ho : other ≠ "points")
    (hrect : df.rect = true) : df1.getCol other = df.getCol other := by
  rcases repairPoints_ok_cases df df1 h with ⟨h1, _⟩ | ⟨cells, _, h1, _, hlen⟩
  · rw [h1]
  · rw [h1]
    exact setCol_getCol_ne df _ other cells ho hrect hlen

/-- Points repair never changes the index. -/
theorem repairPoints_ok_index (df df1 : DataFrame)
    (h : repairPoints df = .ok df1) : df1.index = df.index := by
  rcases repairPoints_ok_cases df df1 h with ⟨h1, _⟩ | ⟨cells, _, h1, _, _⟩
  · rw [h1]
  · rw [h1, setCol_index]

/-- When the points column is textual, a successful repair is exactly the
parsed column written back. -/
theorem repairPoints_ok_points_col (df df1 : DataFrame)
    (h : repairPoints df = .ok df1) (hpts : "points" ∈ df.columns)
    (hdty : colDtypeIsObject (df.getCol "points") = true) :
    ∃ cells, parsePointsCol (df.getCol "points") = .ok cells ∧
      df1 = df.setCol "points" cells ∧ cells.length = df.rows.length := by
  rcases repairPoints_ok_cases df df1 h with ⟨_, hc⟩ | ⟨cells, hp, h1, _, hlen⟩
  · rw [hdty] at hc
    simp [hpts] at hc
  · exact ⟨cells, hp, h1, hlen⟩

/-- Type resolution with a supplied type stamps the whole column. -/
theorem resolveType_some (df : DataFrame) (t : String) :
    resolveType df (some t)
      = .ok (df.setCol "block_type" (df.rows.map fun _ => some (.str t))) := rfl

/-- Type resolution with no supplied type requires a `block_type` column
and passes the frame through. -/
theorem resolveType_none_ok (df df2 : DataFrame)
    (h : resolveType df none = .ok df2) :
    df2 = df ∧ "block_type" ∈ df.columns := by
  by_cases hc : df.columns.contains "block_type" = true
  · have hmem : "block_type" ∈ df.columns := by simpa using hc
    have h2 : resolveType df none = .ok df := by
      unfold resolveType
      simp [hmem]
    rw [h2] at h
    exact ⟨(Except.ok.inj h).symm, hmem⟩
  · have hmem : "block_type" ∉ df.columns := by simpa using hc
    have h2 : resolveType df none = .error .missingType := by
      unfold resolveType
      simp [hmem]
    rw [h2] at h
    simp at h

/-- Columns after type resolution: unchanged, or with `block_type`
appended. -/
theorem resolveType_ok_columns (df df2 : DataFrame) (bt : Option String)
    (h : resolveType df bt = .ok df2) :
    df2.columns = df.columns ∨ df2.columns = df.columns ++ ["block_type"] := by
  cases bt with
  | none =>
    obtain ⟨h1, _⟩ := resolveType_none_ok df df2 h
    rw [h1]
    exact .inl rfl
  | some t =>
    rw [resolveType_some] at h
    have h1 := (Except.ok.inj h).symm
    rw [h1, setCol_columns]
    split
    · exact .inl rfl
    · exact .inr rfl

/-- Type resolution preserves the row count. -/
theorem resolveType_ok_rows_length (df df2 : DataFrame) (bt : Option String)
    (h : resolveType df bt = .ok df2) : df2.rows.length = df.rows.length := by
  cases bt with
  | none =>
    obtain ⟨h1, _⟩ := resolveType_none_ok df df2 h
    rw [h1]
  | some t =>
    rw [resolveType_some] at h
    have h1 := (Except.ok.inj h).symm
    rw [h1]
    exact setCol_rows_length _ _ _ (by rw [List.length_map])

/-- Type resolution preserves rectangularity. -/
theorem resolveType_ok_rect (df df2 : DataFrame) (bt : Option String)
    (h : resolveType df bt = .ok df2) (hrect : df.rect = true) :
    df2.rect = true := by
  cases bt with
  | none =>
    obtain ⟨h1, _⟩ := resolveType_none_ok df df2 h
    rw [h1]
    exact hrect
  | some t =>
    rw [resolveType_some] at h
    have h1 := (Except.ok.inj h).symm
    rw [h1]
    exact setCol_rect _ _ _ hrect (by rw [List.length_map])

/-- Type resolution preserves duplicate-freedom of the columns. -/
theorem resolveType_ok_nodup (df df2 : DataFrame) (bt : Option String)
    (h : resolveType df bt = .ok df2) (hnd : df.columns.Nodup) :
    df2.columns.Nodup := by
  cases bt with
  | none =>
    obtain ⟨h1, _⟩ := resolveType_none_ok df df2 h
    rw [h1]
    exact hnd
  | some t =>
    rw [resolveType_some] at h
    have h1 := (Except.ok.inj h).symm
    rw [h1]
    exact setCol_columns_nodup _ _ _ hnd

/-- Type resolution never changes the index. -/
theorem resolveType_ok_index (df df2 : DataFrame) (bt : Option String)
    (h : resolveType df bt = .ok df2) : df2.index = df.index := by
  cases bt with
  | none => rw [(resolveType_none_ok df df2 h).1]
  | some t =>
    rw [resolveType_some] at h
    rw [(Except.ok.inj h).symm, setCol_index]

/-- Type resolution leaves every column other than `block_type`
unchanged. -/
theorem resolveType_ok_getCol_ne (df df2 : DataFrame) (bt : Option String)
    (other : String) (h : resolveType df bt = .ok df2)
    (ho : other ≠ "block_type") (hrect : df.rect = true) :
    df2.getCol other = df.getCol other := by
  cases bt with
  | none =>
    obtain ⟨h1, _⟩ := resolveType_none_ok df df2 h
    rw [h1]
  | some t =>
    rw [resolveType_some] at h
    have h1 := (Except.ok.inj h).symm
    rw [h1]
    exact setCol_getCol_ne df _ other _ ho hrect (by rw [List.length_map])

/-- Id assignment on a well-formed frame preserves the row count. -/
theorem assignIds_rows_length (feats : List String) (df : DataFrame)
    (hrect : df.rect = true) :
    (assignIds feats df).rows.length = df.rows.length := by
  unfold assignIds
  split
  · exact setCol_rows_length _ _ _
      (by rw [List.length_map, rect_index_length df hrect])
  · rfl

/-- Id assignment preserves duplicate-freedom of the columns. -/
theorem assignIds_columns_nodup (feats : List String) (df : DataFrame)
    (hnd : df.columns.Nodup) : (assignIds feats df).columns.Nodup := by
  unfold assignIds
  split
  · exact setCol_columns_nodup _ _ _ hnd
  · exact hnd

/-- Id assignment leaves every column other than `id` unchanged. -/
theorem assignIds_getCol_ne (feats : List String) (df : DataFrame)
    (other : String) (ho : other ≠ "id") (hrect : df.rect = true) :
    (assignIds feats df).getCol other = df.getCol other := by
  unfold assignIds
  split
  · exact setCol_getCol_ne df _ other _ ho hrect
      (by rw [List.length_map, rect_index_length df hrect])
  · rfl

/-- When the feature/id condition holds, the assigned `id` column holds
the frame's index labels. -/
theorem assignIds_getCol_id (feats : List String) (df : DataFrame)
    (hrect : df.rect = true)
    (hcond : (df.columns.any (fun c => feats.contains c)
      && !df.columns.contains "id") = true) :
    (assignIds feats df).getCol "id" = df.index.map fun l => some (.num l) := by
  unfold assignIds
  rw [if_pos hcond]
  exact setCol_getCol_self df "id" _ hrect
    (by rw [List.length_map, rect_index_length df hrect])

/-- Decomposition of a successful normalization. -/
theorem normalizeRecords_ok_cases (feats : List String) (df : DataFrame)
    (bt : Option String) (recs : List (List (String × JValue)))
    (h : normalizeRecords feats df bt = .ok recs) :
    ∃ df1 df2, repairPoints df = .ok df1 ∧ resolveType df1 bt = .ok df2 ∧
      recs = (assignIds feats df2).rows.map
        (fun r => rowToRecord (assignIds feats df2).columns r) := by
  unfold normalizeRecords at h
  split at h
  · simp at h
  · next df1 heq1 =>
    split at h
    · simp at h
    · next df2 heq2 =>
      simp only [Except.ok.injEq] at h
      exact ⟨df1, df2, heq1, heq2, h.symm⟩

/-- Looking up `name` in record `i` reads cell `i` of the final frame's
column `name`. -/
theorem recs_jlookup (df3 : DataFrame) (i : Nat)
    (rec : List (String × JValue)) (hnd : df3.columns.Nodup)
    (hrec : (df3.rows.map fun r => rowToRecord df3.columns r).get? i = some rec)
    (name : String) :
    (df3.getCol name).get? i = some (jlookup rec name) := by
  rw [List.get?_map] at hrec
  cases hrow : df3.rows.get? i with
  | none => rw [hrow] at hrec; simp at hrec
  | some row =>
    rw [hrow] at hrec
    simp only [Option.map_some', Option.some.injEq] at hrec
    subst hrec
    unfold DataFrame.getCol
    rw [List.get?_map, hrow]
    simp [jlookup_rowToRecord df3.columns row name hnd]

/-- The cell written by the points repair at row `i` is what the
corresponding record stores under `"points"`. -/
theorem points_cell_in_record (feats : List String) (df : DataFrame)
    (bt : Option String) (recs : List (List (String × JValue)))
    (hrect : df.rect = true) (hnd : df.columns.Nodup)
    (hnorm : normalizeRecords feats df bt = .ok recs)
    (hpts : "points" ∈ df.columns)
    (hdty : colDtypeIsObject (df.getCol "points") = true)
    (i : Nat) (c o : Option JValue)
    (hc : (df.getCol "points").get? i = some c)
    (ho : parsePointsCell c = .ok o) :
    ∃ rec, recs.get? i = some rec ∧ jlookup rec "points" = o := by
  obtain ⟨df1, df2, h1, h2, h3⟩ := normalizeRecords_ok_cases feats df bt recs hnorm
  obtain ⟨cells, hp, hdf1, hclen⟩ := repairPoints_ok_points_col df df1 h1 hpts hdty
  obtain ⟨o', ho1, ho2⟩ := parsePointsCol_ok_get? _ cells hp i c hc
  have hoo : o' = o := by
    rw [ho] at ho2
    exact (Except.ok.inj ho2).symm
  subst hoo
  have hrect1 : df1.rect = true := repairPoints_ok_rect df df1 h1 hrect
  have hnd1 : df1.columns.Nodup := by
    rw [repairPoints_ok_columns df df1 h1]
    exact hnd
  have hnd2 : df2.columns.Nodup := resolveType_ok_nodup df1 df2 bt h2 hnd1
  have hnd3 : (assignIds feats df2).columns.Nodup := assignIds_columns_nodup feats df2 hnd2
  have hrect2 : df2.rect = true := resolveType_ok_rect df1 df2 bt h2 hrect1
  have hgc : (assignIds feats df2).getCol "points" = cells := by
    rw [assignIds_getCol_ne feats df2 "points" (by decide) hrect2]
    rw [resolveType_ok_getCol_ne df1 df2 bt "points" h2 (by decide) hrect1]
    rw [hdf1]
    exact setCol_getCol_self df "points" cells hrect hclen
  -- the record at row i exists
  have hi : i < df.rows.length := by
    have := (List.get?_eq_some.mp hc).1
    simpa [DataFrame.getCol] using this
  have hi3 : i < (assignIds feats df2).rows.length := by
    rw [assignIds_rows_length feats df2 hrect2,
      resolveType_ok_rows_length df1 df2 bt h2,
      repairPoints_ok_rows_length df df1 h1]
    exact hi
  cases hrow : (assignIds feats df2).rows.get? i with
  | none => exact absurd (List.get?_eq_none.mp hrow) (by omega)
  | some row =>
    refine ⟨rowToRecord (assignIds feats df2).columns row, ?_, ?_⟩
    · rw [h3, List.get?_map, hrow]
      rfl
    · have hrec : ((assignIds feats df2).rows.map
          fun r => rowToRecord (assignIds feats df2).columns r).get? i
          = some (rowToRecord (assignIds feats df2).columns row) := by
        rw [List.get?_map, hrow]
        rfl
      have hj := recs_jlookup (assignIds feats df2) i _ hnd3 hrec "points"
      rw [hgc, ho1] at hj
      exact (Option.some.inj hj).symm

/-- Normalizing a zero-row table yields no records, provided the
type-resolution requirement is met. -/
theorem normalizeRecords_rows_nil (feats : List String) (df : DataFrame)
    (bt : Option String) (hrows : df.rows = [])
    (h : bt.isSome = true ∨ df.columns.contains "block_type" = true) :
    normalizeRecords feats df bt = .ok [] := by
  have hrep : repairPoints df = .ok df := by
    unfold repairPoints
    have hd : colDtypeIsObject (df.getCol "points") = false := by
      unfold DataFrame.getCol
      rw [hrows]
      rfl
    rw [hd]
    simp
  unfold normalizeRecords
  cases bt with
  | some t =>
    have hr2 : (df.setCol "block_type" (df.rows.map fun _ => some (JValue.str t))).rows
        = [] := setCol_rows_nil df hrows _ _
    have hr3 : (assignIds feats
        (df.setCol "block_type" (df.rows.map fun _ => some (JValue.str t)))).rows
        = [] := by
      unfold assignIds
      split
      · exact setCol_rows_nil _ hr2 _ _
      · exact hr2
    simp only [hrep, resolveType_some]
    rw [hr3]
    rfl
  | none =>
    rcases h with hh | hh
    · simp at hh
    · have hmem : "block_type" ∈ df.columns := by simpa using hh
      have h2 : resolveType df none = .ok df := by
        unfold resolveType
        simp [hmem]
      have hr3 : (assignIds feats df).rows = [] := by
        unfold assignIds
        split
        · exact setCol_rows_nil _ hrows _ _
        · exact hrows
      simp only [hrep, h2]
      rw [hr3]
      rfl

/-! ### Claims about `load_dataframe` -/

/-- **C4 (counterexample to the claim as stated).** A table with no
`block_type` column, no declared type, but an unparseable textual points
cell fails with the literal-eval error — the geometry-repair step runs
first — not with the missing-type error the claim requires. -/
theorem c4_counterexample :
    load_dataframe ["rectangle"] ["text"]
      { columns := ["points"], rows := [[some (.str "(")]] } none
      = .error (.literalEvalError (.str "(")) ∧
    load_dataframe ["rectangle"] ["text"]
      { columns := ["points"], rows := [[some (.str "(")]] } none
      ≠ .error .missingType := by
  have h : load_dataframe ["rectangle"] ["text"]
      { columns := ["points"], rows := [[some (.str "(")]] } none
      = .error (.literalEvalError (.str "(")) := rfl
  refine ⟨h, ?_⟩
  rw [h]
  intro hc
  simp at hc

/-- **C4 (amended).** Provided the earlier geometry-repair step succeeded
(it always does when there is no textual points column): a supplied block
type stamps every produced record's `block_type` with it, overwriting any
existing column; with no supplied type and no `block_type` column the call
fails with the missing-type error whatever the rows contain — the check
fires before any per-row conversion. -/
theorem c4_type_resolution (reg feats : List String) (df df1 : DataFrame)
    (hrep : repairPoints df = .ok df1) (hrect : df.rect = true)
    (hnd : df.columns.Nodup) :
    (∀ t recs, normalizeRecords feats df (some t) = .ok recs →
      ∀ i rec, recs.get? i = some rec →
        jlookup rec "block_type" = some (.str t)) ∧
    ("block_type" ∉ df.columns →
      load_dataframe reg feats df none = .error .missingType) := by
  constructor
  · intro t recs hnorm i rec hrec
    obtain ⟨df1', df2, h1, h2, h3⟩ := normalizeRecords_ok_cases feats df (some t) recs hnorm
    rw [hrep] at h1
    have hdf1 : df1 = df1' := Except.ok.inj h1
    subst hdf1
    have hcols1 : df1.columns = df.columns := repairPoints_ok_columns df df1 hrep
    have hrect1 : df1.rect = true := repairPoints_ok_rect df df1 hrep hrect
    have hnd1 : df1.columns.Nodup := by rw [hcols1]; exact hnd
    rw [resolveType_some] at h2
    have hdf2 : df2 = df1.setCol "block_type" (df1.rows.map fun _ => some (.str t)) :=
      (Except.ok.inj h2).symm
    subst hdf2
    have hclen : (df1.rows.map fun _ => some (JValue.str t)).length = df1.rows.length :=
      List.length_map _ _
    have hrect2 : (df1.setCol "block_type"
        (df1.rows.map fun _ => some (.str t))).rect = true :=
      setCol_rect df1 _ _ hrect1 hclen
    have hnd2 : (df1.setCol "block_type"
        (df1.rows.map fun _ => some (JValue.str t))).columns.Nodup :=
      setCol_columns_nodup df1 _ _ hnd1
    have hnd3 := assignIds_columns_nodup feats _ hnd2
    have hgc : (assignIds feats (df1.setCol "block_type"
        (df1.rows.map fun _ => some (.str t)))).getCol "block_type"
        = df1.rows.map fun _ => some (.str t) := by
      rw [assignIds_getCol_ne feats _ "block_type" (by decide) hrect2]
      exact setCol_getCol_self df1 "block_type" _ hrect1 hclen
    have hj := recs_jlookup _ i rec hnd3 (by rw [← h3]; exact hrec) "block_type"
    rw [hgc] at hj
    have hi : i < df1.rows.length := by
      have h4 := (List.get?_eq_some.mp hrec).1
      rw [h3, List.length_map, assignIds_rows_length feats _ hrect2,
        setCol_rows_length df1 _ _ hclen] at h4
      exact h4
    rw [List.get?_map] at hj
    cases hx : df1.rows.get? i with
    | none => exact absurd (List.get?_eq_none.mp hx) (by omega)
    | some row =>
      rw [hx] at hj
      simp only [Option.map_some', Option.some.injEq] at hj
      exact hj.symm
  · intro hbt
    have hc : df1.columns.contains "block_type" = false := by
      rw [repairPoints_ok_columns df df1 hrep]
      simp [hbt]
    have hmem : "block_type" ∉ df1.columns := by simpa using hc
    have h2 : resolveType df1 none = .error .missingType := by
      unfold resolveType
      simp [hmem]
    simp [load_dataframe, normalizeRecords, hrep, h2]

/-- Witness for C4: a supplied type `"rectangle"` overwrites an existing
`block_type` column in the produced record, and a table with rows but no
`block_type` column and no declared type fails with the missing-type
error. -/
theorem c4_type_resolution_witness :
    jlookup [("block_type", JValue.str "rectangle")] "block_type"
      = some (.str "rectangle") ∧
    load_dataframe ["rectangle"] ["text"]
      { columns := ["x1"], rows := [[some (.num 5)]] } none
      = .error .missingType :=
  ⟨(c4_type_resolution ["rectangle"] ["text"]
      { columns := ["block_type"], rows := [[some (.str "old")]] }
      { columns := ["block_type"], rows := [[some (.str "old")]] }
      (by rfl) (by rfl) (by simp)).1 "rectangle"
      [[("block_type", .str "rectangle")]] (by rfl) 0
      [("block_type", .str "rectangle")] (by rfl),
   (c4_type_resolution ["rectangle"] ["text"]
      { columns := ["x1"], rows := [[some (.num 5)]] }
      { columns := ["x1"], rows := [[some (.num 5)]] }
      (by rfl) (by rfl) (by simp)).2 (by simp)⟩

/-- **C5 (counterexample to the claim as stated).** A tabular input with a
feature column, no `id` column, and a non-default index (labels 5 and 7,
as a slice of a larger frame carries) gets ids 5 and 7 — the index
labels — not the 0-based row positions the claim requires. -/
theorem c5_counterexample :
    normalizeRecords ["text"]
      { columns := ["text", "block_type"],
        rows := [[some (.str "a"), some (.str "rectangle")],
                 [some (.str "b"), some (.str "rectangle")]],
        index := [5, 7] } none
      = .ok [[("text", .str "a"), ("block_type", .str "rectangle"),
              ("id", .num 5)],
             [("text", .str "b"), ("block_type", .str "rectangle"),
              ("id", .num 7)]] ∧
    jlookup [("text", JValue.str "a"), ("block_type", JValue.str "rectangle"),
        ("id", JValue.num 5)] "id" ≠ some (.num (Int.ofNat 0)) := by
  refine ⟨rfl, fun h => ?_⟩
  have h2 : some (JValue.num 5) = some (JValue.num (Int.ofNat 0)) := h
  injection h2 with h3
  injection h3 with h4
  exact absurd h4 (by decide)

/-- **C5 (amended).** When some input column belongs to the TextBlock
feature set and there is no `id` column, every produced record carries
`id` equal to its row's index label (`df["id"] = df.index`), in input
order; when the index is the default `RangeIndex` — as for any frame
produced by `read_csv` — that label is exactly the 0-based row
position. -/
theorem c5_id_synthesis (feats : List String) (df : DataFrame)
    (bt : Option String) (recs : List (List (String × JValue)))
    (hrect : df.rect = true) (hnd : df.columns.Nodup)
    (hfeat : df.columns.any (fun c => feats.contains c) = true)
    (hid : "id" ∉ df.columns)
    (hnorm : normalizeRecords feats df bt = .ok recs) :
    ∀ i rec, recs.get? i = some rec →
      jlookup rec "id" = (df.index.get? i).map JValue.num ∧
      (df.index = (List.range df.rows.length).map Int.ofNat →
        jlookup rec "id" = some (.num (Int.ofNat i))) := by
  intro i rec hrec
  obtain ⟨df1, df2, h1, h2, h3⟩ := normalizeRecords_ok_cases feats df bt recs hnorm
  have hcols1 : df1.columns = df.columns := repairPoints_ok_columns df df1 h1
  have hrect1 : df1.rect = true := repairPoints_ok_rect df df1 h1 hrect
  have hrect2 : df2.rect = true := resolveType_ok_rect df1 df2 bt h2 hrect1
  have hnd1 : df1.columns.Nodup := by rw [hcols1]; exact hnd
  have hnd2 : df2.columns.Nodup := resolveType_ok_nodup df1 df2 bt h2 hnd1
  have hnd3 : (assignIds feats df2).columns.Nodup := assignIds_columns_nodup feats df2 hnd2
  have hcols2 := resolveType_ok_columns df1 df2 bt h2
  rw [hcols1] at hcols2
  have hfeat2 : df2.columns.any (fun c => feats.contains c) = true := by
    rcases hcols2 with hh | hh <;> rw [hh]
    · exact hfeat
    · simp only [List.any_append, hfeat, Bool.true_or]
  have hid2 : df2.columns.contains "id" = false := by
    rcases hcols2 with hh | hh <;> rw [hh] <;> simp [hid]
  have hcond : (df2.columns.any (fun c => feats.contains c)
      && !df2.columns.contains "id") = true := by
    rw [hfeat2, hid2]
    rfl
  have hidx2 : df2.index = df.index := by
    rw [resolveType_ok_index df1 df2 bt h2, repairPoints_ok_index df df1 h1]
  have hgc := assignIds_getCol_id feats df2 hrect2 hcond
  rw [hidx2] at hgc
  have hj := recs_jlookup (assignIds feats df2) i rec hnd3 (by rw [← h3]; exact hrec) "id"
  rw [hgc] at hj
  have hi2 : i < df2.rows.length := by
    have h4 := (List.get?_eq_some.mp hrec).1
    rw [h3, List.length_map, assignIds_rows_length feats df2 hrect2] at h4
    exact h4
  have hirows : i < df.rows.length := by
    rw [← repairPoints_ok_rows_length df df1 h1,
      ← resolveType_ok_rows_length df1 df2 bt h2]
    exact hi2
  have hiidx : i < df.index.length := by
    rw [rect_index_length df hrect]
    exact hirows
  cases hlbl : df.index.get? i with
  | none => exact absurd (List.get?_eq_none.mp hlbl) (by omega)
  | some lbl =>
    rw [List.get?_map, hlbl] at hj
    simp only [Option.map_some', Option.some.injEq] at hj
    have hjl : jlookup rec "id" = some (.num lbl) := hj.symm
    constructor
    · rw [hjl]
      rfl
    · intro hdef
      rw [hdef, List.get?_map, List.get?_range hirows] at hlbl
      simp only [Option.map_some', Option.some.injEq] at hlbl
      rw [hjl, hlbl]

/-- Witness for C5: a two-row table with a `text` feature column, no `id`
column and the default index yields records with ids 0 and 1 in input
order. -/
theorem c5_id_synthesis_witness :
    jlookup [("text", JValue.str "a"), ("block_type", JValue.str "rectangle"),
        ("id", JValue.num (Int.ofNat 0))] "id" = some (.num (Int.ofNat 0)) ∧
    jlookup [("text", JValue.str "b"), ("block_type", JValue.str "rectangle"),
        ("id", JValue.num (Int.ofNat 1))] "id" = some (.num (Int.ofNat 1)) :=
  ⟨((c5_id_synthesis ["text"]
      { columns := ["text", "block_type"],
        rows := [[some (.str "a"), some (.str "rectangle")],
                 [some (.str "b"), some (.str "rectangle")]] } none
      [[("text", .str "a"), ("block_type", .str "rectangle"),
        ("id", .num (Int.ofNat 0))],
       [("text", .str "b"), ("block_type", .str "rectangle"),
        ("id", .num (Int.ofNat 1))]]
      (by rfl) (by simp) (by rfl) (by simp) (by rfl) 0 _ (by rfl)).2) (by rfl),
   ((c5_id_synthesis ["text"]
      { columns := ["text", "block_type"],
        rows := [[some (.str "a"), some (.str "rectangle")],
                 [some (.str "b"), some (.str "rectangle")]] } none
      [[("text", .str "a"), ("block_type", .str "rectangle"),
        ("id", .num (Int.ofNat 0))],
       [("text", .str "b"), ("block_type", .str "rectangle"),
        ("id", .num (Int.ofNat 1))]]
      (by rfl) (by simp) (by rfl) (by simp) (by rfl) 1 _ (by rfl)).2) (by rfl)⟩

/-- **C6.** For a textual points column: every cell holding a parseable
literal ends up, parsed, as the `points` value of the corresponding
record, and every missing cell stays missing (the record has no `points`
entry). -/
theorem c6_points_parsing (feats : List String) (df : DataFrame)
    (bt : Option String) (recs : List (List (String × JValue)))
    (hrect : df.rect = true) (hnd : df.columns.Nodup)
    (hnorm : normalizeRecords feats df bt = .ok recs)
    (hpts : "points" ∈ df.columns)
    (hdty : colDtypeIsObject (df.getCol "points") = true) :
    (∀ i s v, (df.getCol "points").get? i = some (some (.str s)) →
      literal_eval s = some v →
      ∃ rec, recs.get? i = some rec ∧ jlookup rec "points" = some v) ∧
    (∀ i, (df.getCol "points").get? i = some none →
      ∃ rec, recs.get? i = some rec ∧ jlookup rec "points" = none) := by
  constructor
  · intro i s v hc hlit
    exact points_cell_in_record feats df bt recs hrect hnd hnorm hpts hdty i _ _ hc
      (by simp [parsePointsCell, hlit])
  · intro i hc
    exact points_cell_in_record feats df bt recs hrect hnd hnorm hpts hdty i _ _ hc rfl

/-- Witness for C6: the cell `"[[0,0],[1,1]]"` is parsed into the
structured coordinate list in record 0, and the empty cell of record 1
stays empty. -/
theorem c6_points_parsing_witness :
    (∃ rec,
      ([[("points", JValue.arr [.arr [.num 0, .num 0], .arr [.num 1, .num 1]]),
         ("block_type", JValue.str "rectangle")],
        [("block_type", JValue.str "rectangle")]]
          : List (List (String × JValue))).get? 0 = some rec ∧
      jlookup rec "points"
        = some (.arr [.arr [.num 0, .num 0], .arr [.num 1, .num 1]])) ∧
    (∃ rec,
      ([[("points", JValue.arr [.arr [.num 0, .num 0], .arr [.num 1, .num 1]]),
         ("block_type", JValue.str "rectangle")],
        [("block_type", JValue.str "rectangle")]]
          : List (List (String × JValue))).get? 1 = some rec ∧
      jlookup rec "points" = none) :=
  ⟨(c6_points_parsing ["text"]
      { columns := ["points", "block_type"],
        rows := [[some (.str "[[0,0],[1,1]]"), some (.str "rectangle")],
                 [none, some (.str "rectangle")]] } none _
      (by rfl) (by simp) (by rfl) (by simp) (by rfl)).1
      0 "[[0,0],[1,1]]" _ (by rfl) (by rfl),
   (c6_points_parsing ["text"]
      { columns := ["points", "block_type"],
        rows := [[some (.str "[[0,0],[1,1]]"), some (.str "rectangle")],
                 [none, some (.str "rectangle")]] } none _
      (by rfl) (by simp) (by rfl) (by simp) (by rfl)).2 1 (by rfl)⟩

/-- **C7 (counterexample to the claim as stated).** The empty table with no
`block_type` column and no declared type does not load as an empty
Collection: it fails with the missing-type error. -/
theorem c7_counterexample :
    load_dataframe ["rectangle"] ["text"] { columns := [], rows := [] } none
      = .error .missingType ∧
    load_dataframe ["rectangle"] ["text"] { columns := [], rows := [] } none
      ≠ .ok (.layout [] none) := by
  have h : load_dataframe ["rectangle"] ["text"] { columns := [], rows := [] } none
      = .error .missingType := rfl
  refine ⟨h, ?_⟩
  rw [h]
  intro hc
  simp at hc

/-- **C7 (amended).** A zero-row table loads successfully as the empty
Collection provided the type-resolution requirement is met (a declared
type is supplied, or a `block_type` column exists); with neither, even the
empty table fails with the missing-type error. -/
theorem c7_empty_table (reg feats : List String) (cols : List String)
    (bt : Option String)
    (h : bt.isSome = true ∨ cols.contains "block_type" = true) :
    load_dataframe reg feats { columns := cols, rows := [] } bt
      = .ok (.layout [] none) := by
  unfold load_dataframe
  rw [normalizeRecords_rows_nil feats { columns := cols, rows := [] } bt rfl h]
  simp [load_dict, loadList]

/-- Witness for C7: the empty table with a declared type loads as the
empty Collection. -/
theorem c7_empty_table_witness :
    load_dataframe ["rectangle"] ["text"] { columns := [], rows := [] }
      (some "rectangle") = .ok (.layout [] none) :=
  c7_empty_table ["rectangle"] ["text"] [] (some "rectangle") (.inl rfl)

/-- **C8.** The tabular loader never mutates the caller-owned input frame:
with the caller's dataframe held at reference `r` of the store, the store
slot at `r` after `load_dataframe` returns (or fails) is exactly what it
was before — every column repair went to the freshly allocated copy. -/
theorem c8_no_input_mutation (reg feats : List String) (store : DFStore)
    (r : Nat) (bt : Option String) :
    ((load_dataframeS reg feats store r bt).2).get? r = store.get? r := by
  unfold load_dataframeS
  split
  · rfl
  · next df hr =>
    have hrlt : r < store.length := (List.get?_eq_some.mp hr).1
    have hne : store.length ≠ r := by omega
    split
    · show ((store ++ [df]).get? r) = store.get? r
      exact List.get?_append hrlt
    · next df1 h1 =>
      split
      · show (((store ++ [df]).set store.length df1).get? r) = store.get? r
        rw [get?_set_ne _ _ _ _ hne]
        exact List.get?_append hrlt
      · next df2 h2 =>
        show (((((store ++ [df]).set store.length df1).set store.length df2).set
          store.length (assignIds feats df2)).get? r) = store.get? r
        rw [get?_set_ne _ _ _ _ hne, get?_set_ne _ _ _ _ hne,
          get?_set_ne _ _ _ _ hne]
        exact List.get?_append hrlt

/-- **C9.** The geometry parser is a general literal evaluator: any string
cell of the points column whose text is a valid literal — of any shape,
not only coordinate lists — is stored, parsed and unvalidated, as the
record's `points` value; and a string cell whose text is not a valid
literal makes the whole call fail with the literal-eval error, which is
outside the spec's error taxonomy. -/
theorem c9_arbitrary_literal (reg feats : List String) (df : DataFrame)
    (bt : Option String) (hrect : df.rect = true) (hnd : df.columns.Nodup)
    (hpts : "points" ∈ df.columns)
    (hdty : colDtypeIsObject (df.getCol "points") = true) :
    (∀ recs i s v, normalizeRecords feats df bt = .ok recs →
      (df.getCol "points").get? i = some (some (.str s)) →
      literal_eval s = some v →
      ∃ rec, recs.get? i = some rec ∧ jlookup rec "points" = some v) ∧
    (∀ s, some (JValue.str s) ∈ df.getCol "points" → literal_eval s = none →
      ∃ w, load_dataframe reg feats df bt = .error (.literalEvalError w) ∧
        isSpecTaxonomyError (.literalEvalError w) = false) := by
  constructor
  · intro recs i s v hnorm hc hlit
    exact points_cell_in_record feats df bt recs hrect hnd hnorm hpts hdty i _ _ hc
      (by simp [parsePointsCell, hlit])
  · intro s hmem hlit
    have he : parsePointsCell (some (.str s)) = .error (.literalEvalError (.str s)) := by
      simp [parsePointsCell, hlit]
    obtain ⟨w, hw⟩ := parsePointsCol_error_of_mem _ _ hmem _ he
    refine ⟨w, ?_, rfl⟩
    simp [load_dataframe, normalizeRecords, repairPoints, hw, hpts, hdty]

/-- Witness for C9: the number literal `"7"` — not a coordinate list — is
accepted and stored as the geometry, and the non-literal `"("` makes the
whole call fail with the literal-eval error. -/
theorem c9_arbitrary_literal_witness :
    (∃ rec,
      ([[("points", JValue.num 7), ("block_type", JValue.str "rectangle")]]
        : List (List (String × JValue))).get? 0 = some rec ∧
      jlookup rec "points" = some (.num 7)) ∧
    (∃ w, load_dataframe ["rectangle"] ["text"]
        { columns := ["points", "block_type"],
          rows := [[some (.str "("), some (.str "rectangle")]] } none
        = .error (.literalEvalError w) ∧
      isSpecTaxonomyError (.literalEvalError w) = false) :=
  ⟨(c9_arbitrary_literal ["rectangle"] ["text"]
      { columns := ["points", "block_type"],
        rows := [[some (.str "7"), some (.str "rectangle")]] } none
      (by rfl) (by simp) (by simp) (by rfl)).1
      [[("points", .num 7), ("block_type", .str "rectangle")]]
      0 "7" (.num 7) (by rfl) (by rfl) (by rfl),
   (c9_arbitrary_literal ["rectangle"] ["text"]
      { columns := ["points", "block_type"],
        rows := [[some (.str "("), some (.str "rectangle")]] } none
      (by rfl) (by simp) (by simp) (by rfl)).2
      "(" (by simp [DataFrame.getCol, getCell]) (by rfl)⟩

end LayoutParser
